import Mathlib

/-!
Shallow embedding of `backend/secure_server.py`, the WebSocket proxy server
for the Azure OpenAI Realtime API.  Time is modelled in integer seconds
(`datetime.now()` differences via `total_seconds()`), WebSocket messages as a
tagged variant (`str` payloads vs `bytes` payloads), the module-level tables
`sessions`, `user_connections`, `user_requests` as functions out of `String`
(`defaultdict` defaults are the functions' values at unbound keys).
-/

/-- A WebSocket message unit: Python `str` (JSON/control) or `bytes` (audio). -/
inductive WsMsg
  | text (s : String)
  | binary (b : List Nat)
deriving DecidableEq

/-- One entry of the `sessions` dict:
`{user_id, created_at, azure_ws, client_ws, message_count}`.  The two
connection handles are modelled by whether they have been assigned. -/
structure Session where
  user_id : String
  created_at : Int
  azure_ws : Bool
  client_ws : Bool
  message_count : Nat
deriving DecidableEq

/-- The module-level mutable state of `secure_server.py`:
`sessions : Dict[str, dict]`, `user_connections : Dict[str, Set[str]]`
(defaultdict(set)), `user_requests : Dict[str, list]` (defaultdict(list)). -/
structure ServerState where
  sessions : String → Option Session
  user_connections : String → Finset String
  user_requests : String → List Int

/-- Constant `MAX_CONNECTIONS_PER_USER = 3`. -/
def MAX_CONNECTIONS_PER_USER : Nat := 3

/-- Constant `MAX_REQUESTS_PER_MINUTE = 60`. -/
def MAX_REQUESTS_PER_MINUTE : Nat := 60

/-- Constant `RATE_LIMIT_WINDOW = 60` seconds. -/
def RATE_LIMIT_WINDOW : Int := 60

/-- Embeds `create_session(user_id)`: inserts a fresh record into `sessions` and adds
the id to `user_connections[user_id]`.  The generated `str(uuid.uuid4())` is
passed in as `session_id`; `datetime.now()` as `now`. -/
def create_session (st : ServerState) (user_id : String) (session_id : String)
    (now : Int) : ServerState :=
  { st with
    sessions := Function.update st.sessions session_id
      (some { user_id := user_id, created_at := now,
              azure_ws := false, client_ws := false, message_count := 0 }),
    user_connections := Function.update st.user_connections user_id
      (insert session_id (st.user_connections user_id)) }

/-- Embeds `cleanup_session(session_id)`: if the id is present, discard it from the
owner's `user_connections` set and delete it from `sessions`; otherwise leave
the state untouched. -/
def cleanup_session (st : ServerState) (session_id : String) : ServerState :=
  match st.sessions session_id with
  | some session =>
      { st with
        user_connections := Function.update st.user_connections session.user_id
          ((st.user_connections session.user_id).erase session_id),
        sessions := Function.update st.sessions session_id none }
  | none => st

/-- Embeds `check_rate_limit(user_id)`: connection-count check first (state
untouched on that rejection), then prune `user_requests[user_id]` to the
timestamps with `(now - ts).total_seconds() < RATE_LIMIT_WINDOW`, reject if
the pruned log has reached `MAX_REQUESTS_PER_MINUTE`, else append `now`.
Returns the `(allowed, reason)` pair together with the updated state. -/
def check_rate_limit (st : ServerState) (now : Int) (user_id : String) :
    (Bool × String) × ServerState :=
  if MAX_CONNECTIONS_PER_USER ≤ (st.user_connections user_id).card then
    ((false, "Maximum " ++ toString MAX_CONNECTIONS_PER_USER ++
        " concurrent connections exceeded"), st)
  else
    let pruned := (st.user_requests user_id).filter
      (fun ts => now - ts < RATE_LIMIT_WINDOW)
    if MAX_REQUESTS_PER_MINUTE ≤ pruned.length then
      ((false, "Rate limit exceeded: " ++ toString MAX_REQUESTS_PER_MINUTE ++
          " requests per minute"),
       { st with user_requests := Function.update st.user_requests user_id pruned })
    else
      ((true, "OK"),
       { st with user_requests :=
          Function.update st.user_requests user_id (pruned ++ [now]) })

/-- Python `headers.get('Authorization', '')`: dictionary lookup with default. -/
def headers_get (headers : List (String × String)) (key : String) : String :=
  (((headers.find? (fun p => p.1 == key)).map Prod.snd).getD "")

/-- Python `s.replace(pat, '')`: delete every non-overlapping occurrence of
`pat`, scanning left to right.  Fuel-indexed so the recursion is structural;
the fuel is the length of the scanned list, which bounds the number of steps. -/
def replaceDeleteAux : Nat → List Char → List Char → List Char
  | 0, _, l => l
  | _ + 1, _, [] => []
  | fuel + 1, pat, c :: cs =>
      if pat.isPrefixOf (c :: cs) then
        replaceDeleteAux fuel pat ((c :: cs).drop pat.length)
      else
        c :: replaceDeleteAux fuel pat cs

/-- Python `s.replace(pat, '')` on `String`. -/
def py_replace_delete (s pat : String) : String :=
  ⟨replaceDeleteAux s.data.length pat.data s.data⟩

/-- Python `s.strip()`: drop whitespace from both ends. -/
def py_strip (s : String) : String :=
  ⟨((s.data.dropWhile Char.isWhitespace).reverse.dropWhile Char.isWhitespace).reverse⟩

/-- Embeds `authenticate_user(headers)`: if the `Authorization` header starts with
`"Bearer "`, the identity is the header with every `"Bearer "` occurrence
removed, stripped; otherwise `f"anonymous-{uuid.uuid4().hex[:8]}"`, the
generated hex string being passed in as `uuid_hex`.  Returns `Optional[str]`;
the function itself always returns a string. -/
def authenticate_user (headers : List (String × String)) (uuid_hex : String) :
    Option String :=
  let auth_header := headers_get headers "Authorization"
  if "Bearer ".data.isPrefixOf auth_header.data then
    some (py_strip (py_replace_delete auth_header "Bearer "))
  else
    some ("anonymous-" ++ String.mk (uuid_hex.data.take 8))

/-- Number of textual payloads in a message sequence. -/
def countText (msgs : List WsMsg) : Nat :=
  msgs.countP (fun m => match m with | .text _ => true | .binary _ => false)

/-- Embeds `proxy_client_to_azure`: `async for message in client_ws`; a `str` payload
is sent to Azure and `message_count` incremented, a `bytes` payload is sent
without touching the counter.  Returns the sequence sent to Azure and the
final counter value. -/
def proxy_client_to_azure : List WsMsg → Nat → List WsMsg × Nat
  | [], message_count => ([], message_count)
  | .text s :: rest, message_count =>
      let r := proxy_client_to_azure rest (message_count + 1)
      (.text s :: r.1, r.2)
  | .binary b :: rest, message_count =>
      let r := proxy_client_to_azure rest message_count
      (.binary b :: r.1, r.2)

/-- Embeds `proxy_azure_to_client`: `async for message in azure_ws`; both `str` and
`bytes` payloads are sent on to the client verbatim; `message_count` is never
referenced. -/
def proxy_azure_to_client : List WsMsg → List WsMsg
  | [] => []
  | .text s :: rest => .text s :: proxy_azure_to_client rest
  | .binary b :: rest => .binary b :: proxy_azure_to_client rest

/-- The stale-session comprehension inside `periodic_cleanup`:
`[sid for sid, session in sessions.items() if (now - session['created_at']).total_seconds() > 3600]`.
`items` is the enumeration of the `sessions` dict at the tick. -/
def stale_sessions (items : List (String × Session)) (now : Int) : List String :=
  (items.filter (fun p => decide (3600 < now - p.2.created_at))).map Prod.fst

/-- Python truthiness test `if not user_id` on an `Optional[str]`:
`None` and the empty string are falsy. -/
def py_falsy : Option String → Bool
  | none => true
  | some s => s == ""

/-- Assignment `sessions[session_id]['client_ws'] = websocket`. -/
def set_client_ws (st : ServerState) (session_id : String) : ServerState :=
  match st.sessions session_id with
  | some s =>
      { st with sessions := Function.update st.sessions session_id (some { s with client_ws := true }) }
  | none => st

/-- Assignment `sessions[session_id]['azure_ws'] = azure_ws`. -/
def set_azure_ws (st : ServerState) (session_id : String) : ServerState :=
  match st.sessions session_id with
  | some s =>
      { st with sessions := Function.update st.sessions session_id (some { s with azure_ws := true }) }
  | none => st

/-- The accumulated `sessions[session_id]['message_count'] += 1` effect of the
client→Azure pump: set the counter to its final value. -/
def set_message_count (st : ServerState) (session_id : String) (n : Nat) :
    ServerState :=
  match st.sessions session_id with
  | some s =>
      { st with sessions := Function.update st.sessions session_id (some { s with message_count := n }) }
  | none => st

/-- Externally visible actions of `handle_client_connection`, in program
order: `websocket.close(code, reason)` on a rejection; the
`websockets.connect(azure_url)` attempt; `websocket.send(json.dumps({'type': t, 'error': e}))`
(with `delivered = false` when the `except: pass` swallowed a send failure);
the unconditional `websocket.close()` of the `finally` block. -/
inductive HEvent
  | closedWith (code : Nat) (reason : String)
  | upstreamConnect
  | errorPayload (type_ : String) (error : String) (delivered : Bool)
  | finalClose
deriving DecidableEq

/-- The per-connection inputs of one `handle_client_connection` run: the
request headers, the two generated uuids (anonymous identity and session id),
the current time, the outcome of the Azure handshake (`Except.error status`
models `InvalidStatusCode`), the message sequences received on each handle
during streaming, and whether the best-effort error send succeeds. -/
structure ConnInput where
  headers : List (String × String)
  anon_uuid : String
  session_uuid : String
  now : Int
  connect_result : Except Nat Unit
  client_msgs : List WsMsg
  azure_msgs : List WsMsg
  error_send_ok : Bool

/-- Embeds `handle_client_connection(websocket, path)`: authenticate (close
1008 on a falsy identity), rate-check (close 1008 with the limiter's reason),
create the session, attach the client handle, attempt the Azure handshake;
on `InvalidStatusCode` send one structured error payload best-effort; on
success run both pumps to completion via
`asyncio.gather(..., return_exceptions=True)`; the `finally` block cleans up
the session (if one was created) and closes the client socket. -/
def handle_client_connection (st : ServerState) (inp : ConnInput) :
    List HEvent × ServerState :=
  let user_id? := authenticate_user inp.headers inp.anon_uuid
  if py_falsy user_id? then
    ([.closedWith 1008 "Authentication failed", .finalClose], st)
  else
    let user_id := user_id?.getD ""
    let res := check_rate_limit st inp.now user_id
    let allowed := res.1.1
    let reason := res.1.2
    let st1 := res.2
    if !allowed then
      ([.closedWith 1008 reason, .finalClose], st1)
    else
      let session_id := inp.session_uuid
      let st2 := create_session st1 user_id session_id inp.now
      let st3 := set_client_ws st2 session_id
      match inp.connect_result with
      | .error status =>
          ([.upstreamConnect,
            .errorPayload "error"
              ("Failed to connect to Azure: " ++ toString status)
              inp.error_send_ok,
            .finalClose],
           cleanup_session st3 session_id)
      | .ok _ =>
          let st4 := set_azure_ws st3 session_id
          let st5 := set_message_count st4 session_id
            (proxy_client_to_azure inp.client_msgs 0).2
          ([.upstreamConnect, .finalClose], cleanup_session st5 session_id)

/-! ## The streaming phase as a transition system

`asyncio.gather(proxy_client_to_azure(..), proxy_azure_to_client(..),
return_exceptions=True)` schedules the two pump coroutines concurrently and
returns once *both* have finished; it does not cancel either child when its
sibling finishes.  Each pump step consumes the next pending unit on its
receiving handle and forwards it; a pump terminates when its handle's stream
ends.  No transition consults the sibling pump's status. -/

/-- Configuration of one session's streaming phase: the units not yet
received on each handle, the units forwarded so far in each direction, the
session's `message_count`, and whether each pump coroutine has finished. -/
structure StreamState where
  clientIn : List WsMsg
  azureIn : List WsMsg
  sentToAzure : List WsMsg
  sentToClient : List WsMsg
  message_count : Nat
  clientPumpDone : Bool
  azurePumpDone : Bool
deriving DecidableEq

/-- Interleaved small-step semantics of the two pumps under
`asyncio.gather(..., return_exceptions=True)`.  Client-pump steps mirror the
`str`/`bytes` branches of `proxy_client_to_azure`; Azure-pump steps mirror
`proxy_azure_to_client`; a pump becomes done when its inbound stream is
exhausted.  Faithful to `gather` without cancellation, no step is guarded on
the sibling pump being unfinished. -/
inductive StreamStep : StreamState → StreamState → Prop
  | clientText (s : String) (rest : List WsMsg) (st : StreamState)
      (hin : st.clientIn = .text s :: rest) (hrun : st.clientPumpDone = false) :
      StreamStep st { st with
        clientIn := rest,
        sentToAzure := st.sentToAzure ++ [.text s],
        message_count := st.message_count + 1 }
  | clientBinary (b : List Nat) (rest : List WsMsg) (st : StreamState)
      (hin : st.clientIn = .binary b :: rest) (hrun : st.clientPumpDone = false) :
      StreamStep st { st with
        clientIn := rest,
        sentToAzure := st.sentToAzure ++ [.binary b] }
  | clientFinish (st : StreamState)
      (hin : st.clientIn = []) (hrun : st.clientPumpDone = false) :
      StreamStep st { st with clientPumpDone := true }
  | azureForward (m : WsMsg) (rest : List WsMsg) (st : StreamState)
      (hin : st.azureIn = m :: rest) (hrun : st.azurePumpDone = false) :
      StreamStep st { st with
        azureIn := rest,
        sentToClient := st.sentToClient ++ [m] }
  | azureFinish (st : StreamState)
      (hin : st.azureIn = []) (hrun : st.azurePumpDone = false) :
      StreamStep st { st with azurePumpDone := true }

/-- Initial streaming configuration: both pumps running, nothing forwarded. -/
def initStream (clientMsgs azureMsgs : List WsMsg) : StreamState :=
  { clientIn := clientMsgs, azureIn := azureMsgs,
    sentToAzure := [], sentToClient := [],
    message_count := 0, clientPumpDone := false, azurePumpDone := false }

/-- Completion: `asyncio.gather` returns — and teardown proceeds — exactly when both pump
coroutines have finished. -/
def streamingComplete (st : StreamState) : Prop :=
  st.clientPumpDone = true ∧ st.azurePumpDone = true

/-- The registry invariant of the spec's data model: a session id sits in an
identity's `user_connections` set exactly when `sessions` maps it to a record
owned by that identity. -/
def registryConsistent (st : ServerState) : Prop :=
  ∀ uid sid, sid ∈ st.user_connections uid ↔
    ∃ s, st.sessions sid = some s ∧ s.user_id = uid

/-- A state with three open connections and one 1000-second-old request
timestamp for identity `"u"`. -/
def stThreeConns : ServerState :=
  { sessions := fun _ => none,
    user_connections := fun uid => if uid = "u" then {"a", "b", "c"} else ∅,
    user_requests := fun uid => if uid = "u" then [-1000] else [] }

/-- A state where identity `"u"` has sixty request timestamps that are exactly
`RATE_LIMIT_WINDOW` old at time 60, and no open connection. -/
def stSixtyOld : ServerState :=
  { sessions := fun _ => none,
    user_connections := fun _ => ∅,
    user_requests := fun uid => if uid = "u" then List.replicate 60 0 else [] }

/-- The empty server state. -/
def stEmpty : ServerState :=
  { sessions := fun _ => none,
    user_connections := fun _ => ∅,
    user_requests := fun _ => [] }

/-- A sample session record created at time 0. -/
def demoSession : Session :=
  { user_id := "u", created_at := 0, azure_ws := false, client_ws := false,
    message_count := 0 }

/-- A state where identity `"u"` has a sorted request log with one in-window
and one out-of-window timestamp at time 100, and no open connection. -/
def stWitnessLog : ServerState :=
  { sessions := fun _ => none,
    user_connections := fun _ => ∅,
    user_requests := fun uid => if uid = "u" then [0, 90] else [] }

/-- A connection request carrying `Authorization: Bearer u`, for exercising
the rate-limit rejection path. -/
def inpBearerU : ConnInput :=
  { headers := [("Authorization", "Bearer u")], anon_uuid := "x",
    session_uuid := "s", now := 0, connect_result := Except.ok (),
    client_msgs := [], azure_msgs := [], error_send_ok := true }

/-- A connection request whose Azure handshake fails with status 404. -/
def inpAzureFail : ConnInput :=
  { headers := [("Authorization", "Bearer bob")], anon_uuid := "x",
    session_uuid := "s1", now := 0, connect_result := Except.error 404,
    client_msgs := [], azure_msgs := [], error_send_ok := true }

/-- A connection request whose `Authorization` header is exactly
`"Bearer "`, so the bearer remainder strips to the empty string. -/
def inpEmptyBearer : ConnInput :=
  { headers := [("Authorization", "Bearer ")], anon_uuid := "u",
    session_uuid := "s", now := 0, connect_result := Except.ok (),
    client_msgs := [], azure_msgs := [], error_send_ok := true }

/-! ## Theorems -/

theorem countText_nil : countText [] = 0 := rfl

theorem countText_cons_text (s : String) (rest : List WsMsg) :
    countText (.text s :: rest) = countText rest + 1 := by
  simp [countText, List.countP_cons]

theorem countText_cons_binary (b : List Nat) (rest : List WsMsg) :
    countText (.binary b :: rest) = countText rest := by
  simp [countText, List.countP_cons]

theorem check_rate_limit_sessions_unchanged (st : ServerState) (now : Int)
    (user_id : String) :
    (check_rate_limit st now user_id).2.sessions = st.sessions ∧
    (check_rate_limit st now user_id).2.user_connections = st.user_connections := by
  unfold check_rate_limit
  split
  · exact ⟨rfl, rfl⟩
  · dsimp only
    split <;> exact ⟨rfl, rfl⟩

theorem maxConnReason_eq :
    ("Maximum " ++ toString MAX_CONNECTIONS_PER_USER ++
      " concurrent connections exceeded") =
    "Maximum 3 concurrent connections exceeded" := by decide

theorem rateReason_eq :
    ("Rate limit exceeded: " ++ toString MAX_REQUESTS_PER_MINUTE ++
      " requests per minute") =
    "Rate limit exceeded: 60 requests per minute" := by decide

/-- C2: every payload received on the client handle is forwarded to the
upstream handle verbatim and in order, with `message_count` incremented once
per textual payload and never for binary payloads; the upstream→client pump
forwards every payload verbatim and in order and never references
`message_count` (its result carries no counter at all). -/
theorem proxy_pumps_forward_in_order (msgs : List WsMsg) (message_count : Nat) :
    (proxy_client_to_azure msgs message_count).1 = msgs ∧
    (proxy_client_to_azure msgs message_count).2 = message_count + countText msgs ∧
    proxy_azure_to_client msgs = msgs := by
  induction msgs generalizing message_count with
  | nil => exact ⟨rfl, by simp [proxy_client_to_azure, countText_nil], rfl⟩
  | cons m rest ih =>
      cases m with
      | text s =>
          obtain ⟨h1, h2, h3⟩ := ih (message_count + 1)
          refine ⟨?_, ?_, ?_⟩
          · simpa [proxy_client_to_azure] using h1
          · simp [proxy_client_to_azure, h2, countText_cons_text]
            omega
          · simpa [proxy_azure_to_client] using h3
      | binary b =>
          obtain ⟨h1, h2, h3⟩ := ih message_count
          refine ⟨?_, ?_, ?_⟩
          · simpa [proxy_client_to_azure] using h1
          · simp [proxy_client_to_azure, h2, countText_cons_binary]
          · simpa [proxy_azure_to_client] using h3

/-- C4: destroying a session twice is the same as destroying it once; a
destroy on an absent id is a no-op; a destroy on a present id removes the
session from both mappings. -/
theorem cleanup_session_idempotent (st : ServerState) (sid : String) :
    cleanup_session (cleanup_session st sid) sid = cleanup_session st sid ∧
    (st.sessions sid = none → cleanup_session st sid = st) ∧
    (∀ s, st.sessions sid = some s →
      (cleanup_session st sid).sessions sid = none ∧
      sid ∉ (cleanup_session st sid).user_connections s.user_id) := by
  rcases h : st.sessions sid with _ | s
  · refine ⟨?_, fun _ => ?_, fun s hs => by simp [h] at hs⟩
    · simp [cleanup_session, h]
    · simp [cleanup_session, h]
  · refine ⟨?_, fun hn => by simp [h] at hn, fun s' hs' => ?_⟩
    · have hnone : (cleanup_session st sid).sessions sid = none := by
        simp [cleanup_session, h, Function.update_same]
      conv_lhs => rw [cleanup_session.eq_def, hnone]
    · obtain rfl : s' = s := by
        injection hs' with hx
        exact hx.symm
      constructor
      · simp [cleanup_session, h, Function.update_same]
      · simp [cleanup_session, h, Function.update_same]

/-- C4 witness: concrete run of the idempotence and no-op facts. -/
theorem cleanup_session_idempotent_witness :
    cleanup_session stThreeConns "zz" = stThreeConns :=
  (cleanup_session_idempotent stThreeConns "zz").2.1 rfl

/-- C5: starting from a consistent state, both `create_session` (with a fresh
id, as `uuid4` provides) and `cleanup_session` reestablish the registry
invariant: a session id is in an identity's open-session set iff the primary
mapping holds a record for it owned by that identity.  Both mappings are
updated inside the one operation. -/
theorem registry_consistency_preserved (st : ServerState)
    (h : registryConsistent st) (uid sid : String) (now : Int) :
    (st.sessions sid = none →
      registryConsistent (create_session st uid sid now)) ∧
    registryConsistent (cleanup_session st sid) := by
  constructor
  · intro hfresh u' s'
    have hinv := h u' s'
    simp only [create_session]
    by_cases hs : s' = sid
    · subst hs
      rw [Function.update_same]
      by_cases hu : u' = uid
      · subst hu
        rw [Function.update_same]
        simp
      · rw [Function.update_noteq hu]
        constructor
        · intro hmem
          rcases hinv.mp hmem with ⟨t, ht, _⟩
          rw [hfresh] at ht
          cases ht
        · rintro ⟨t, ht, hut⟩
          injection ht with ht'
          subst ht'
          exact absurd hut.symm hu
    · rw [Function.update_noteq hs]
      by_cases hu : u' = uid
      · subst hu
        rw [Function.update_same, Finset.mem_insert]
        constructor
        · rintro (rfl | hmem)
          · exact absurd rfl hs
          · exact hinv.mp hmem
        · intro hex
          exact Or.inr (hinv.mpr hex)
      · rw [Function.update_noteq hu]
        exact hinv
  · rcases hcs : st.sessions sid with _ | s0
    · have heq : cleanup_session st sid = st := by simp [cleanup_session, hcs]
      rw [heq]
      exact h
    · intro u' s'
      have hinv := h u' s'
      simp only [cleanup_session, hcs]
      by_cases hs : s' = sid
      · subst hs
        rw [Function.update_same]
        constructor
        · intro hmem
          by_cases hu : u' = s0.user_id
          · subst hu
            rw [Function.update_same] at hmem
            exact absurd (Finset.mem_erase.mp hmem).1 (by simp)
          · rw [Function.update_noteq hu] at hmem
            rcases hinv.mp hmem with ⟨t, ht, hut⟩
            rw [hcs] at ht
            injection ht with ht'
            subst ht'
            exact absurd hut.symm hu
        · rintro ⟨t, ht, _⟩
          cases ht
      · rw [Function.update_noteq hs]
        by_cases hu : u' = s0.user_id
        · subst hu
          rw [Function.update_same, Finset.mem_erase]
          simp only [ne_eq, hs, not_false_iff, true_and]
          exact hinv
        · rw [Function.update_noteq hu]
          exact hinv

/-- C5 witness: creating a fresh session in the (consistent) empty state
preserves the invariant. -/
theorem registry_consistency_preserved_witness :
    registryConsistent (create_session stEmpty "u" "s1" 0) :=
  (registry_consistency_preserved stEmpty
    (by intro uid sid; simp [stEmpty, registryConsistent]) "u" "s1" 0).1 rfl

/-- C1 counterexample: the claim's reason string and prune boundary both
disagree with the code.  (i) With three open connections the code rejects
with reason `"Maximum 3 concurrent connections exceeded"`, not
`"max concurrent connections exceeded."`.  (ii) With sixty timestamps that
are exactly `RATE_LIMIT_WINDOW` old — none of them *older than* the window,
so per the claim all sixty stay and the call must be rejected with
`"rate limit exceeded."` — the code prunes all sixty and admits the call. -/
theorem check_rate_limit_spec_counterexample :
    (check_rate_limit stThreeConns 0 "u").1 =
      (false, "Maximum 3 concurrent connections exceeded") ∧
    "Maximum 3 concurrent connections exceeded" ≠
      "max concurrent connections exceeded." ∧
    (check_rate_limit stSixtyOld 60 "u").1 = (true, "OK") ∧
    ((stSixtyOld.user_requests "u").filter
        (fun ts => RATE_LIMIT_WINDOW < (60 : Int) - ts)).length = 0 ∧
    (stSixtyOld.user_requests "u").length = 60 := by
  decide

/-- C1 amended (corrected): `check_rate_limit` first rejects with reason
`"Maximum 3 concurrent connections exceeded"` (state untouched) when the
identity's concurrent-session count is at least `MAX_CONNECTIONS_PER_USER`;
otherwise it prunes timestamps at least `RATE_LIMIT_WINDOW` old (keeping
those strictly younger than the window) and rejects with reason
`"Rate limit exceeded: 60 requests per minute"` when the pruned count is at
least `MAX_REQUESTS_PER_MINUTE`; otherwise it appends the current timestamp
and allows. -/
theorem check_rate_limit_amended (st : ServerState) (now : Int)
    (user_id : String) :
    (MAX_CONNECTIONS_PER_USER ≤ (st.user_connections user_id).card →
      check_rate_limit st now user_id =
        ((false, "Maximum 3 concurrent connections exceeded"), st)) ∧
    ((st.user_connections user_id).card < MAX_CONNECTIONS_PER_USER →
      MAX_REQUESTS_PER_MINUTE ≤
        ((st.user_requests user_id).filter
          (fun ts => now - ts < RATE_LIMIT_WINDOW)).length →
      (check_rate_limit st now user_id).1 =
        (false, "Rate limit exceeded: 60 requests per minute") ∧
      (check_rate_limit st now user_id).2.sessions = st.sessions ∧
      (check_rate_limit st now user_id).2.user_connections =
        st.user_connections ∧
      (check_rate_limit st now user_id).2.user_requests =
        Function.update st.user_requests user_id
          ((st.user_requests user_id).filter
            (fun ts => now - ts < RATE_LIMIT_WINDOW))) ∧
    ((st.user_connections user_id).card < MAX_CONNECTIONS_PER_USER →
      ((st.user_requests user_id).filter
          (fun ts => now - ts < RATE_LIMIT_WINDOW)).length <
        MAX_REQUESTS_PER_MINUTE →
      (check_rate_limit st now user_id).1 = (true, "OK") ∧
      (check_rate_limit st now user_id).2.sessions = st.sessions ∧
      (check_rate_limit st now user_id).2.user_connections =
        st.user_connections ∧
      (check_rate_limit st now user_id).2.user_requests =
        Function.update st.user_requests user_id
          ((st.user_requests user_id).filter
            (fun ts => now - ts < RATE_LIMIT_WINDOW) ++ [now])) := by
  refine ⟨fun h1 => ?_, fun h1 h2 => ?_, fun h1 h2 => ?_⟩
  · rw [check_rate_limit, if_pos h1, maxConnReason_eq]
  · rw [check_rate_limit, if_neg (Nat.not_le.mpr h1)]
    dsimp only
    rw [if_pos h2]
    exact ⟨by rw [rateReason_eq], rfl, rfl, rfl⟩
  · rw [check_rate_limit, if_neg (Nat.not_le.mpr h1)]
    dsimp only
    rw [if_neg (Nat.not_le.mpr h2)]
    exact ⟨rfl, rfl, rfl, rfl⟩

/-- C1 witness: the concurrency-limit branch at a concrete state. -/
theorem check_rate_limit_amended_witness :
    check_rate_limit stThreeConns 0 "u" =
      ((false, "Maximum 3 concurrent connections exceeded"), stThreeConns) :=
  (check_rate_limit_amended stThreeConns 0 "u").1 (by decide)

/-- C9 counterexample: on the concurrency-limit branch `check_rate_limit`
returns before pruning, so a timestamp 1000 seconds old survives the call,
contradicting the claim that after any admit call the log holds only
timestamps within the trailing window. -/
theorem prune_skipped_counterexample :
    (check_rate_limit stThreeConns 0 "u").2.user_requests "u" = [-1000] ∧
    ¬((0 : Int) - (-1000) < RATE_LIMIT_WINDOW) := by
  decide

/-- C9 amended (corrected): on every admit call that passes the
concurrency-limit check, timestamps at least `RATE_LIMIT_WINDOW` old are
pruned before the window check; afterwards the identity's log holds only
timestamps strictly within the trailing window, stays sorted (given a sorted
log of past timestamps), and grows only by the one appended current
timestamp at its end (exactly when the call is allowed). -/
theorem request_log_pruned_amended (st : ServerState) (now : Int)
    (user_id : String)
    (hcard : (st.user_connections user_id).card < MAX_CONNECTIONS_PER_USER)
    (hsorted : List.Sorted (· ≤ ·) (st.user_requests user_id))
    (hpast : ∀ ts ∈ st.user_requests user_id, ts ≤ now) :
    (∀ ts ∈ (check_rate_limit st now user_id).2.user_requests user_id,
        now - ts < RATE_LIMIT_WINDOW) ∧
    List.Sorted (· ≤ ·)
      ((check_rate_limit st now user_id).2.user_requests user_id) ∧
    ((check_rate_limit st now user_id).1.1 = true →
      (check_rate_limit st now user_id).2.user_requests user_id =
        (st.user_requests user_id).filter
          (fun ts => now - ts < RATE_LIMIT_WINDOW) ++ [now]) ∧
    ((check_rate_limit st now user_id).1.1 = false →
      (check_rate_limit st now user_id).2.user_requests user_id =
        (st.user_requests user_id).filter
          (fun ts => now - ts < RATE_LIMIT_WINDOW)) := by
  have hmem_filter : ∀ ts ∈ (st.user_requests user_id).filter
      (fun ts => now - ts < RATE_LIMIT_WINDOW), now - ts < RATE_LIMIT_WINDOW := by
    intro ts hts
    exact of_decide_eq_true (List.mem_filter.mp hts).2
  have hsorted_filter : List.Sorted (· ≤ ·)
      ((st.user_requests user_id).filter
        (fun ts => now - ts < RATE_LIMIT_WINDOW)) :=
    hsorted.filter _
  rw [check_rate_limit, if_neg (Nat.not_le.mpr hcard)]
  dsimp only
  split
  · refine ⟨?_, ?_, ?_, fun _ => ?_⟩
    · simpa only [Function.update_same] using hmem_filter
    · simpa only [Function.update_same] using hsorted_filter
    · intro hab
      simp at hab
    · simp only [Function.update_same]
  · refine ⟨?_, ?_, fun _ => ?_, ?_⟩
    · simp only [Function.update_same]
      intro ts hts
      rcases List.mem_append.mp hts with hin | hin
      · exact hmem_filter ts hin
      · rcases List.mem_singleton.mp hin with rfl
        simp [RATE_LIMIT_WINDOW]
    · simp only [Function.update_same]
      rw [List.Sorted, List.pairwise_append]
      refine ⟨hsorted_filter, List.pairwise_singleton _ _, ?_⟩
      intro a ha b hb
      rcases List.mem_singleton.mp hb with rfl
      exact hpast a (List.mem_of_mem_filter ha)
    · simp only [Function.update_same]
    · intro hab
      simp at hab

/-- C9 witness: at time 100, with log `[0, 90]`, the stale timestamp `0` is
pruned and the admitted call's timestamp is appended at the end. -/
theorem request_log_pruned_amended_witness :
    (check_rate_limit stWitnessLog 100 "u").2.user_requests "u" =
      [(90 : Int), 100] :=
  ((request_log_pruned_amended stWitnessLog 100 "u" (by decide) (by decide)
      (by decide)).2.2.1 (by decide)).trans (by decide)

/-- C6 counterexample: a session created at time 0 is not in the stale scan
at time exactly 3600, although the claim (`now ≥ T + 3600`) includes it —
the code's comparison is strict. -/
theorem stale_scan_boundary_counterexample :
    stale_sessions [("a", demoSession)] 3600 = [] ∧
    (3600 : Int) ≥ demoSession.created_at + 3600 := by
  decide

/-- C6 amended (corrected): a session id is in the janitor's stale scan iff
one of its entries is strictly older than 3600 seconds; for an id with a
unique entry created at `T` this is `now > T + 3600`, so a session with
`now ≤ T + 3600` (younger or exactly at the bound) is never included. -/
theorem stale_scan_membership_amended (items : List (String × Session))
    (now : Int) (sid : String) :
    (sid ∈ stale_sessions items now ↔
      ∃ s, (sid, s) ∈ items ∧ 3600 < now - s.created_at) ∧
    (∀ s, (sid, s) ∈ items → (∀ s', (sid, s') ∈ items → s' = s) →
      (sid ∈ stale_sessions items now ↔ s.created_at + 3600 < now)) := by
  have hmem : sid ∈ stale_sessions items now ↔
      ∃ s, (sid, s) ∈ items ∧ 3600 < now - s.created_at := by
    simp only [stale_sessions, List.mem_map, List.mem_filter]
    constructor
    · rintro ⟨p, ⟨hp, hcond⟩, rfl⟩
      exact ⟨p.2, hp, of_decide_eq_true hcond⟩
    · rintro ⟨s, hs, hlt⟩
      exact ⟨(sid, s), ⟨hs, decide_eq_true hlt⟩, rfl⟩
  refine ⟨hmem, fun s hsin huniq => ?_⟩
  rw [hmem]
  constructor
  · rintro ⟨s', hs', hlt⟩
    have hss := huniq s' hs'
    subst hss
    omega
  · intro hlt
    exact ⟨s, hsin, by omega⟩

/-- C6 witness: the session created at time 0 is included at time 4000. -/
theorem stale_scan_membership_amended_witness :
    "a" ∈ stale_sessions [("a", demoSession)] 4000 :=
  (((stale_scan_membership_amended [("a", demoSession)] 4000 "a").2 demoSession
      (by simp)
      (fun s' hs' => by simpa using List.mem_singleton.mp hs')).mpr
    (by decide))

/-- C10 counterexample: with header `Authorization: "Bearer "` the default
authenticator returns the empty string — a falsy identity — and the
connection handler takes the `Authentication failed` close-1008 branch the
claim calls unreachable. -/
theorem authenticate_user_empty_bearer_counterexample :
    authenticate_user [("Authorization", "Bearer ")] "u" = some "" ∧
    py_falsy (authenticate_user [("Authorization", "Bearer ")] "u") = true ∧
    (handle_client_connection stEmpty inpEmptyBearer).1 =
      [HEvent.closedWith 1008 "Authentication failed", HEvent.finalClose] := by
  decide

/-- C10 amended (corrected): the default authenticator never returns `None`;
for a non-Bearer `Authorization` header it synthesizes a non-falsy anonymous
identity, and for a Bearer header it returns the header with every
`"Bearer "` occurrence removed, stripped — which is empty (falsy) exactly
for whitespace-only remainders, making the `Authentication failed` close
branch reachable for such headers. -/
theorem authenticate_user_total_amended (headers : List (String × String))
    (uuid_hex : String) :
    (authenticate_user headers uuid_hex).isSome = true ∧
    (¬ "Bearer ".data.isPrefixOf (headers_get headers "Authorization").data →
      authenticate_user headers uuid_hex =
        some ("anonymous-" ++ String.mk (uuid_hex.data.take 8)) ∧
      py_falsy (authenticate_user headers uuid_hex) = false) ∧
    ("Bearer ".data.isPrefixOf (headers_get headers "Authorization").data →
      authenticate_user headers uuid_hex =
        some (py_strip (py_replace_delete
          (headers_get headers "Authorization") "Bearer "))) := by
  refine ⟨?_, fun hnb => ?_, fun hb => ?_⟩
  · unfold authenticate_user
    dsimp only
    split <;> rfl
  · unfold authenticate_user
    dsimp only
    rw [if_neg hnb]
    refine ⟨rfl, ?_⟩
    have hne : ("anonymous-" ++ String.mk (uuid_hex.data.take 8)) ≠ "" := by
      intro hcontra
      have h1 := congrArg String.length hcontra
      rw [String.length_append] at h1
      have h2 : ("anonymous-" : String).length = 10 := by decide
      have h3 : ("" : String).length = 0 := by decide
      rw [h2, h3] at h1
      omega
    simpa [py_falsy] using hne
  · unfold authenticate_user
    dsimp only
    rw [if_pos hb]

/-- C10 witness: a request with no Authorization header gets a non-falsy
anonymous identity. -/
theorem authenticate_user_total_amended_witness :
    authenticate_user [] "abcdef" =
      some ("anonymous-" ++ String.mk ("abcdef".data.take 8)) ∧
    py_falsy (authenticate_user [] "abcdef") = false :=
  (authenticate_user_total_amended [] "abcdef").2.1 (by decide)

/-- C7: a connection whose authentication yields a falsy identity, or whose
rate admission is denied, is closed with policy-violation code 1008 and the
human-readable reason, no session record is created (the `sessions` mapping
is untouched), and no upstream connection is attempted. -/
theorem reject_paths_create_no_session (st : ServerState) (inp : ConnInput) :
    (py_falsy (authenticate_user inp.headers inp.anon_uuid) = true →
      handle_client_connection st inp =
        ([HEvent.closedWith 1008 "Authentication failed", HEvent.finalClose],
         st) ∧
      HEvent.upstreamConnect ∉ (handle_client_connection st inp).1) ∧
    (py_falsy (authenticate_user inp.headers inp.anon_uuid) = false →
      (check_rate_limit st inp.now
          ((authenticate_user inp.headers inp.anon_uuid).getD "")).1.1 =
        false →
      (handle_client_connection st inp).1 =
        [HEvent.closedWith 1008
          (check_rate_limit st inp.now
            ((authenticate_user inp.headers inp.anon_uuid).getD "")).1.2,
         HEvent.finalClose] ∧
      (handle_client_connection st inp).2.sessions = st.sessions ∧
      HEvent.upstreamConnect ∉ (handle_client_connection st inp).1) := by
  constructor
  · intro hf
    have heq : handle_client_connection st inp =
        ([HEvent.closedWith 1008 "Authentication failed", HEvent.finalClose],
         st) := by
      unfold handle_client_connection
      dsimp only
      rw [if_pos hf]
    rw [heq]
    exact ⟨rfl, by simp⟩
  · intro hok hden
    have heq : handle_client_connection st inp =
        ([HEvent.closedWith 1008
            (check_rate_limit st inp.now
              ((authenticate_user inp.headers inp.anon_uuid).getD "")).1.2,
          HEvent.finalClose],
         (check_rate_limit st inp.now
           ((authenticate_user inp.headers inp.anon_uuid).getD "")).2) := by
      unfold handle_client_connection
      dsimp only
      rw [if_neg (by simp [hok]), if_pos (by simp [hden])]
    rw [heq]
    refine ⟨rfl, ?_, by simp⟩
    exact (check_rate_limit_sessions_unchanged st inp.now
      ((authenticate_user inp.headers inp.anon_uuid).getD "")).1

/-- C7 witness: identity `"u"` with three open connections is rejected with
close code 1008 and the concurrency reason, and no upstream attempt occurs. -/
theorem reject_paths_create_no_session_witness :
    (handle_client_connection stThreeConns inpBearerU).1 =
      [HEvent.closedWith 1008 "Maximum 3 concurrent connections exceeded",
       HEvent.finalClose] :=
  (((reject_paths_create_no_session stThreeConns inpBearerU).2
      (by decide) (by decide)).1).trans (by decide)

/-- C8: when the Azure handshake fails after the session record was created,
the handler emits exactly one structured error payload
`{type: "error", error: message}` (delivered best-effort, a send failure
being swallowed), then closes the client connection, and no session record
for the session remains in the registry afterwards. -/
theorem upstream_failure_cleanup (st : ServerState) (inp : ConnInput)
    (status : Nat)
    (hconn : inp.connect_result = Except.error status)
    (hauth : py_falsy (authenticate_user inp.headers inp.anon_uuid) = false)
    (hallow : (check_rate_limit st inp.now
        ((authenticate_user inp.headers inp.anon_uuid).getD "")).1.1 =
      true) :
    (handle_client_connection st inp).1 =
      [HEvent.upstreamConnect,
       HEvent.errorPayload "error"
         ("Failed to connect to Azure: " ++ toString status)
         inp.error_send_ok,
       HEvent.finalClose] ∧
    (handle_client_connection st inp).2.sessions inp.session_uuid = none := by
  unfold handle_client_connection
  dsimp only
  rw [if_neg (by simp [hauth]), if_neg (by simp [hallow]), hconn]
  refine ⟨rfl, ?_⟩
  simp [cleanup_session, set_client_ws, create_session, Function.update_same]

/-- C8 witness: a handshake failing with status 404 yields the one structured
error payload, the final close, and an empty registry slot for the session. -/
theorem upstream_failure_cleanup_witness :
    (handle_client_connection stEmpty inpAzureFail).1 =
      [HEvent.upstreamConnect,
       HEvent.errorPayload "error"
         ("Failed to connect to Azure: " ++ toString 404) true,
       HEvent.finalClose] ∧
    (handle_client_connection stEmpty inpAzureFail).2.sessions "s1" = none :=
  upstream_failure_cleanup stEmpty inpAzureFail 404 rfl (by decide) (by decide)

theorem clientPumpRun (msgs : List WsMsg) :
    ∀ (azureIn sentA sentC : List WsMsg) (cnt : Nat) (ad : Bool),
    Relation.ReflTransGen StreamStep
      ⟨msgs, azureIn, sentA, sentC, cnt, false, ad⟩
      ⟨[], azureIn, sentA ++ msgs, sentC, cnt + countText msgs, true, ad⟩ := by
  induction msgs with
  | nil =>
      intro azureIn sentA sentC cnt ad
      have hstep := StreamStep.clientFinish
        ⟨[], azureIn, sentA, sentC, cnt, false, ad⟩ rfl rfl
      simpa [countText_nil] using Relation.ReflTransGen.single hstep
  | cons m rest ih =>
      intro azureIn sentA sentC cnt ad
      cases m with
      | text s =>
          have hstep := StreamStep.clientText s rest
            ⟨WsMsg.text s :: rest, azureIn, sentA, sentC, cnt, false, ad⟩ rfl rfl
          refine Relation.ReflTransGen.head hstep ?_
          have htail := ih azureIn (sentA ++ [WsMsg.text s]) sentC (cnt + 1) ad
          have heq : (⟨[], azureIn, (sentA ++ [WsMsg.text s]) ++ rest, sentC,
              cnt + 1 + countText rest, true, ad⟩ : StreamState) =
              ⟨[], azureIn, sentA ++ (WsMsg.text s :: rest), sentC,
              cnt + countText (WsMsg.text s :: rest), true, ad⟩ := by
            congr 1
            · simp
            · rw [countText_cons_text]
              omega
          exact heq ▸ htail
      | binary b =>
          have hstep := StreamStep.clientBinary b rest
            ⟨WsMsg.binary b :: rest, azureIn, sentA, sentC, cnt, false, ad⟩ rfl rfl
          refine Relation.ReflTransGen.head hstep ?_
          have htail := ih azureIn (sentA ++ [WsMsg.binary b]) sentC cnt ad
          have heq : (⟨[], azureIn, (sentA ++ [WsMsg.binary b]) ++ rest, sentC,
              cnt + countText rest, true, ad⟩ : StreamState) =
              ⟨[], azureIn, sentA ++ (WsMsg.binary b :: rest), sentC,
              cnt + countText (WsMsg.binary b :: rest), true, ad⟩ := by
            congr 1
            simp
          exact heq ▸ htail

theorem azurePumpRun (msgs : List WsMsg) :
    ∀ (sentA sentC : List WsMsg) (cnt : Nat),
    Relation.ReflTransGen StreamStep
      ⟨[], msgs, sentA, sentC, cnt, true, false⟩
      ⟨[], [], sentA, sentC ++ msgs, cnt, true, true⟩ := by
  induction msgs with
  | nil =>
      intro sentA sentC cnt
      have hstep := StreamStep.azureFinish
        ⟨[], [], sentA, sentC, cnt, true, false⟩ rfl rfl
      simpa using Relation.ReflTransGen.single hstep
  | cons m rest ih =>
      intro sentA sentC cnt
      have hstep := StreamStep.azureForward m rest
        ⟨[], m :: rest, sentA, sentC, cnt, true, false⟩ rfl rfl
      refine Relation.ReflTransGen.head hstep ?_
      have htail := ih sentA (sentC ++ [m]) cnt
      have heq : (⟨[], [], sentA, (sentC ++ [m]) ++ rest, cnt, true, true⟩ :
          StreamState) =
          ⟨[], [], sentA, sentC ++ (m :: rest), cnt, true, true⟩ := by
        congr 1
        simp
      exact heq ▸ htail

/-- C3 counterexample: with the client pump already finished, the
Azure→client pump still has an enabled forwarding step —
`asyncio.gather(..., return_exceptions=True)` cancels nothing — so the claim
that the surviving pump's pending receive/send is actively cancelled (no
further forwarding once the sibling terminates) is false. -/
theorem gather_no_cancellation_counterexample :
    ∃ s s' : StreamState, StreamStep s s' ∧ s.clientPumpDone = true ∧
      s'.sentToClient ≠ s.sentToClient := by
  refine ⟨{ clientIn := [], azureIn := [WsMsg.text "x"], sentToAzure := [],
            sentToClient := [], message_count := 0, clientPumpDone := true,
            azurePumpDone := false }, _,
    StreamStep.azureForward (WsMsg.text "x") [] _ rfl rfl, rfl, ?_⟩
  decide

/-- C3 amended (corrected): when one pump terminates the other is not
cancelled: the streaming phase (gather with `return_exceptions=True`) ends
only once both pumps have finished naturally, and there is a completing run
that forwards every pending payload of both directions — the surviving pump
drains its stream rather than being torn down. -/
theorem stream_runs_to_completion_without_cancel
    (clientMsgs azureMsgs : List WsMsg) :
    ∃ s : StreamState,
      Relation.ReflTransGen StreamStep (initStream clientMsgs azureMsgs) s ∧
      streamingComplete s ∧ s.sentToAzure = clientMsgs ∧
      s.sentToClient = azureMsgs ∧ s.message_count = countText clientMsgs := by
  refine ⟨⟨[], [], [] ++ clientMsgs, [] ++ azureMsgs,
      0 + countText clientMsgs, true, true⟩, ?_, ⟨rfl, rfl⟩,
    by simp, by simp, by simp⟩
  exact (clientPumpRun clientMsgs azureMsgs [] [] 0 false).trans
    (azurePumpRun azureMsgs ([] ++ clientMsgs) [] (0 + countText clientMsgs))
